import Mathlib

/-
Verification of the multi-agent memory-bank orchestration core of the
memory-bank-mcp repository, as a shallow embedding in Lean 4.

Conventions of the embedding:
- Python dataclasses become Lean structures; wall-clock fields (timestamps,
  durations) are either threaded as explicit string parameters or omitted when
  no claim mentions them.
- The filesystem state observed after an agent invocation stream ends is
  modelled as a function from file name to an optional size in bytes.
- A Python function that can raise becomes a Lean function into Except String,
  where the error value carries the exception message.
- The asyncio gather with return_exceptions=True is modelled by a list of
  Except outcomes, positionally aligned with the submitted tasks.
-/

namespace MemoryBankCore

/-! ## Data model: architecture agent (architecture_agent.py) -/

/-- Embeds ArchitectureType from architecture_agent.py. -/
inductive ArchitectureType where
  | microservices
  | monolith
  | modular_monolith
  | serverless
  | mixed
  | unknown
deriving DecidableEq, Repr

/-- Embeds ComponentType from architecture_agent.py. -/
inductive ComponentType where
  | service
  | frontend
  | backend
  | library
  | module
  | worker
  | api_gateway
  | database
deriving DecidableEq, Repr

/-- Embeds the Component dataclass from architecture_agent.py. The optional
entry_points and estimated_size fields default to None in the source and are
never set by the parser, so they are omitted here. -/
structure Component where
  name : String
  type : ComponentType
  path : String
  technology : String
  complexity : String
  dependencies : List String
  description : String
deriving DecidableEq, Repr

/-- Embeds the ArchitectureManifest dataclass from architecture_agent.py.
The analysis_metadata dict always holds the two constant entries written by
_parse_manifest, flattened here into two string fields. -/
structure ArchitectureManifest where
  system_type : ArchitectureType
  architecture_diagram : String
  components : List Component
  total_components : Nat
  estimated_parallel_agents : Nat
  breakdown_rationale : String
  analyzer_version : String
  analysis_duration : String
  generated_at : String
deriving DecidableEq, Repr

/-! ## Manifest parsing (architecture_agent.py, _parse_manifest) -/

/-- Python substring test: pat in s. Nonempty pat is assumed, matching every
use site. -/
def contains_sub (s pat : String) : Bool :=
  decide (1 < (s.splitOn pat).length)

/-- Python str.endswith, computed on the character lists of the strings. -/
def ends_with (s suf : String) : Bool :=
  suf.data.isSuffixOf s.data

/-- Splits s at the first occurrence of pat, returning the parts before and
after it, or none when pat does not occur. Later occurrences are rejoined so
the second part is everything after the first occurrence. -/
def split_first (s pat : String) : Option (String × String) :=
  match s.splitOn pat with
  | [] => none
  | [_] => none
  | h :: t :: rest => some (h, String.intercalate pat (t :: rest))

/-- Embeds the system-type keyword match of _parse_manifest
(architecture_agent.py lines 315-323): chained case-insensitive substring
tests with UNKNOWN as the fallthrough default. -/
def arch_type_of_content (content : String) : ArchitectureType :=
  let lower := content.toLower
  if contains_sub lower "microservices" then .microservices
  else if contains_sub lower "monolith" && contains_sub lower "modular" then
    .modular_monolith
  else if contains_sub lower "monolith" then .monolith
  else if contains_sub lower "serverless" then .serverless
  else .unknown

/-- Embeds the Mermaid fenced-block extraction of _parse_manifest
(architecture_agent.py lines 326-329): the first non-greedy match of the
region between a mermaid opener line and the next closing fence, empty when
no such match exists. -/
def extract_diagram (content : String) : String :=
  match split_first content "```mermaid\n" with
  | none => ""
  | some (_, tail) =>
    match split_first tail "\n```" with
    | none => ""
    | some (d, _) => d

/-- Embeds ComponentType(type_str) of architecture_agent.py line 350: the
enum lookup succeeds exactly on the eight member values. -/
def component_type_of_string (s : String) : Option ComponentType :=
  if s = "service" then some .service
  else if s = "frontend" then some .frontend
  else if s = "backend" then some .backend
  else if s = "library" then some .library
  else if s = "module" then some .module
  else if s = "worker" then some .worker
  else if s = "api_gateway" then some .api_gateway
  else if s = "database" then some .database
  else none

/-- Python line.split(chr 58, 1)[1]: everything after the first colon.
Every call site first checks that the line contains a colon, so the empty
fallback is unreachable there. -/
def after_first_colon (line : String) : String :=
  match split_first line ":" with
  | some p => p.2
  | none => ""

/-- Embeds the details group of the component regex of _parse_manifest
(architecture_agent.py line 332): the details of one component block extend,
non-greedily, to the next triple hash or to the end of the string, where the
regex end anchor also matches just before one trailing newline. -/
def details_of (rest : String) : String :=
  match split_first rest "###" with
  | some (d, _) => d
  | none => if ends_with rest "\n" then rest.dropRight 1 else rest

/-- Embeds the component-block splitting of _parse_manifest (line 332): each
occurrence of the component header marker starts a block whose name runs to
the end of its line; a marker not followed by a newline is not matched by the
regex and is skipped. -/
def component_sections (content : String) : List (String × String) :=
  match content.splitOn "### Component: " with
  | [] => []
  | _ :: parts =>
    parts.filterMap (fun part =>
      match split_first part "\n" with
      | none => none
      | some (name, rest) => some (name, details_of rest))

/-- Embeds the per-line field extraction of _parse_manifest (lines 346-363):
an elif chain of substring tests, each taking the text after the first colon
of the line, stripped; an unknown type string is ignored, keeping the
default. Later lines overwrite earlier ones for the same key. -/
def parse_component_line (data : Component) (line : String) : Component :=
  if contains_sub line "**Type**:" then
    match component_type_of_string (after_first_colon line).trim with
    | some ct => { data with type := ct }
    | none => data
  else if contains_sub line "**Path**:" then
    { data with path := (after_first_colon line).trim }
  else if contains_sub line "**Technology**:" then
    { data with technology := (after_first_colon line).trim }
  else if contains_sub line "**Complexity**:" then
    { data with complexity := (after_first_colon line).trim }
  else if contains_sub line "**Dependencies**:" then
    let pieces := ((after_first_colon line).trim.splitOn ",").map String.trim
    { data with dependencies := pieces.filter (fun d => !(d == "")) }
  else if contains_sub line "**Description**:" then
    { data with description := (after_first_colon line).trim }
  else data

/-- Embeds the per-component parse of _parse_manifest (lines 334-365):
defaults SERVICE type, root path, unknown technology, medium complexity,
then folds the field extraction over the detail lines. -/
def parse_component (name details : String) : Component :=
  (details.splitOn "\n").foldl parse_component_line
    { name := name.trim
      type := .service
      path := "/"
      technology := "unknown"
      complexity := "medium"
      dependencies := []
      description := "" }

/-- Embeds ArchitectureAgent._parse_manifest (architecture_agent.py lines
303-380) as a pure function of the manifest markdown and the wall-clock
timestamp string that the source takes from datetime.now().isoformat(). -/
def parse_manifest (content : String) (now : String) : ArchitectureManifest :=
  let comps := (component_sections content).map (fun p => parse_component p.1 p.2)
  { system_type := arch_type_of_content content
    architecture_diagram := extract_diagram content
    components := comps
    total_components := comps.length
    estimated_parallel_agents := min comps.length 10
    breakdown_rationale :=
      "Components identified based on service boundaries and logical modules"
    analyzer_version := "1.0.0"
    analysis_duration := "unknown"
    generated_at := now }

/-! ## Architecture agent invocation (architecture_agent.py, analyze) -/

/-- A tool-use event observed in the agent invocation stream; file_path is
the file_path entry of the tool input map, empty when absent, matching
tool_input.get with an empty-string default. -/
structure ToolEvent where
  tool : String
  file_path : String
deriving DecidableEq, Repr

/-- Embeds the manifest-write detection of analyze (architecture_agent.py
line 231): a Write tool event whose file_path ends with the manifest file
name sets manifest_created. -/
def manifest_write_seen (stream : List ToolEvent) : Bool :=
  stream.any (fun ev =>
    ev.tool == "Write" && ends_with ev.file_path "architecture_manifest.md")

/-- Embeds ArchitectureAgent.analyze (architecture_agent.py lines 159-276)
after abstracting the invocation stream: repo_exists and repo_is_dir reflect
the two path checks on repo_path (lines 182-185, which raise before the
stream starts), manifest_file is the content of
output_path/architecture_manifest.md when that file exists after the stream
ends, and turn_count is the number of streamed messages. Errors carry the
exception messages of the source; the turn-limit threshold
int(max_turns * 0.95) is modelled by Nat floor division. A raised error is
an Except.error, which the source re-raises to the caller. -/
def analyze (repo_exists repo_is_dir : Bool) (stream : List ToolEvent)
    (manifest_file : Option String) (turn_count max_turns : Nat)
    (now : String) : Except String ArchitectureManifest :=
  if !repo_exists then .error "Repository path does not exist"
  else if !repo_is_dir then .error "Repository path is not a directory"
  else if !(manifest_write_seen stream) || manifest_file.isNone then
    .error (if max_turns * 95 / 100 ≤ turn_count then
        "Architecture manifest was not created. Hit turn limit"
      else "Architecture manifest was not created")
  else .ok (parse_manifest (manifest_file.getD "") now)

/-! ## Component agent (component_agent.py) -/

/-- Embeds the ComponentAnalysisResult dataclass from component_agent.py.
The created_files and missing_files entries of analysis_metadata are lifted
to record fields because the claims quantify over them. -/
structure ComponentAnalysisResult where
  component_name : String
  success : Bool
  output_path : String
  files_written : List String
  created_files : List String
  missing_files : List String
  errors : List String
deriving DecidableEq, Repr

/-- The six expected output files of ComponentAgent.analyze_component
(component_agent.py lines 174-181). -/
def expected_files : List String :=
  ["projectbrief.md", "techContext.md", "systemPatterns.md",
   "activeContext.md", "progress.md", "api_contracts.md"]

/-- Embeds the per-file check of component_agent.py line 243:
file_path.exists() and file_path.stat().st_size > 100. The component output
directory is modelled as fs : file name to optional size. -/
def file_ok (fs : String → Option Nat) (f : String) : Bool :=
  match fs f with
  | some size => decide (100 < size)
  | none => false

/-- Embeds the post-stream bookkeeping of ComponentAgent.analyze_component
(component_agent.py lines 237-276): the loop partitions expected_files into
created_files and missing_files in order, success is len(missing_files) == 0,
and errors is missing_files when nonempty. Only the non-exception branch is
modelled here; the exception branch is exception_failed_result below. -/
def analyze_component_result (component_name output_path : String)
    (files_written : List String) (fs : String → Option Nat) :
    ComponentAnalysisResult :=
  let created := expected_files.filter (fun f => file_ok fs f)
  let missing := expected_files.filter (fun f => !(file_ok fs f))
  { component_name := component_name
    success := missing.length == 0
    output_path := output_path
    files_written := files_written
    created_files := created
    missing_files := missing
    errors := if missing.isEmpty then [] else missing }

/-! ## Orchestration agent (orchestration_agent.py) -/

/-- Embeds the OrchestrationResult dataclass from orchestration_agent.py.
The orchestration_metadata map and total_duration_seconds carry only
wall-clock and configuration echoes and are omitted. -/
structure OrchestrationResult where
  total_components : Nat
  successful_components : Nat
  failed_components : Nat
  component_results : List ComponentAnalysisResult
deriving DecidableEq, Repr

/-- Embeds the fallback naming of orchestration_agent.py line 110:
manifest.components[i].name if i < len(manifest.components) else
component_i. -/
def fallback_component_name (components : List Component) (i : Nat) : String :=
  match components[i]? with
  | some c => c.name
  | none => "component_" ++ toString i

/-- Embeds the synthetic failed ComponentAnalysisResult built for a raised
task in orchestration_agent.py lines 111-118 (empty analysis_metadata,
errors = [str(result)]). -/
def exception_failed_result (name e : String) : ComponentAnalysisResult :=
  { component_name := name
    success := false
    output_path := ""
    files_written := []
    created_files := []
    missing_files := []
    errors := [e] }

/-- Embeds the result-processing loop of orchestration_agent.py lines
103-128: each task outcome from gather with return_exceptions=True is, in
input order, either converted to a synthetic failed result (exception case,
keyed by its index) or routed to the successful or failed list according to
its success flag. Returns (successful_results, failed_results). -/
def partition_component_outcomes (components : List Component) :
    Nat → List (Except String ComponentAnalysisResult) →
    List ComponentAnalysisResult × List ComponentAnalysisResult
  | _, [] => ([], [])
  | i, o :: rest =>
    let p := partition_component_outcomes components (i + 1) rest
    match o with
    | .error e =>
      (p.1, exception_failed_result (fallback_component_name components i) e :: p.2)
    | .ok r => if r.success then (r :: p.1, p.2) else (p.1, r :: p.2)

/-- Embeds the aggregation of OrchestrationAgent.orchestrate_component_analysis
(orchestration_agent.py lines 101-160): component_results is
successful_results + failed_results and the counts are the list lengths,
with total_components taken from the manifest component list. The per-task
outcomes (returned result or raised exception) are an explicit argument,
positionally aligned with the manifest components as gather guarantees. -/
def orchestrate_component_analysis (components : List Component)
    (outcomes : List (Except String ComponentAnalysisResult)) :
    OrchestrationResult :=
  let p := partition_component_outcomes components 0 outcomes
  { total_components := components.length
    successful_components := p.1.length
    failed_components := p.2.length
    component_results := p.1 ++ p.2 }

/-! ## Validation agent (validation_agent.py) -/

/-- Embeds IssueSeverity from validation_agent.py. -/
inductive IssueSeverity where
  | high
  | medium
  | low
deriving DecidableEq, Repr

/-- Embeds IssueType from validation_agent.py. -/
inductive IssueType where
  | missing
  | inaccurate
  | inconsistent
  | empty
  | incomplete
deriving DecidableEq, Repr

/-- Embeds the ValidationIssue dataclass from validation_agent.py. -/
structure ValidationIssue where
  severity : IssueSeverity
  issue_type : IssueType
  file : String
  description : String
  evidence : String
  suggestion : String
  auto_fixable : Bool
deriving DecidableEq, Repr

/-- Embeds the VerifiedClaim dataclass from validation_agent.py. -/
structure VerifiedClaim where
  claim : String
  source_file : String
  line_numbers : String
  verification_status : String
deriving DecidableEq, Repr

/-- Embeds the ValidationResult dataclass from validation_agent.py; the
validation_metadata dict is represented by its error entry, the only entry a
claim mentions. -/
structure ValidationResult where
  component_name : String
  validation_timestamp : String
  overall_status : String
  completeness_score : Int
  accuracy_score : Int
  issues_found : List ValidationIssue
  issues_fixed : List ValidationIssue
  verified_claims : List VerifiedClaim
  fixes_applied : Nat
  meta_error : Option String
deriving DecidableEq, Repr

/-- One issue entry of a parsed validation_report.json, as read by
validate_and_fix_component (validation_agent.py lines 294-308): the enum
fields already converted, plus the per-issue fixed flag (line 307, default
false). A report whose severity or type string falls outside the enums makes
the parse raise, which is the raised outcome of ValidationOutcome. -/
structure ReportIssue where
  severity : IssueSeverity
  issue_type : IssueType
  file : String
  description : String
  evidence : String
  suggestion : String
  auto_fixable : Bool
  fixed : Bool
deriving DecidableEq, Repr

/-- The parsed content of validation_report.json (validation_agent.py lines
289-321), with the get defaults already applied. -/
structure ValidationReport where
  overall_status : String
  completeness_score : Int
  accuracy_score : Int
  issues : List ReportIssue
  verified_claims : List VerifiedClaim
deriving DecidableEq, Repr

/-- Dropping the report-only fixed flag turns a report issue into the
ValidationIssue stored on the result (validation_agent.py lines 295-303). -/
def to_validation_issue (d : ReportIssue) : ValidationIssue :=
  { severity := d.severity
    issue_type := d.issue_type
    file := d.file
    description := d.description
    evidence := d.evidence
    suggestion := d.suggestion
    auto_fixable := d.auto_fixable }

/-- The three ways a validate_and_fix_component run can end: the report file
was created and parsed, the stream ended without a report file, or an
exception was raised (during the stream or during report parsing). -/
inductive ValidationOutcome where
  | report (r : ValidationReport)
  | no_report
  | raised (e : String)
deriving DecidableEq, Repr

/-- Embeds ValidationAgent.validate_and_fix_component (validation_agent.py
lines 184-390) after the invocation stream is abstracted into its outcome:
a parsed report yields a result whose issues_found are the report issues,
whose issues_fixed are exactly those marked fixed, and whose fixes_applied is
len(issues_fixed); a missing report or an exception yields a FAIL result with
empty issue lists and the note recorded in validation_metadata. -/
def validate_and_fix_component (component_name ts : String)
    (outcome : ValidationOutcome) : ValidationResult :=
  match outcome with
  | .report r =>
    let found := r.issues.map to_validation_issue
    let fixed := (r.issues.filter (fun d => d.fixed)).map to_validation_issue
    { component_name := component_name
      validation_timestamp := ts
      overall_status := r.overall_status
      completeness_score := r.completeness_score
      accuracy_score := r.accuracy_score
      issues_found := found
      issues_fixed := fixed
      verified_claims := r.verified_claims
      fixes_applied := fixed.length
      meta_error := none }
  | .no_report =>
    { component_name := component_name
      validation_timestamp := ts
      overall_status := "FAIL"
      completeness_score := 0
      accuracy_score := 0
      issues_found := []
      issues_fixed := []
      verified_claims := []
      fixes_applied := 0
      meta_error := some "No validation report created" }
  | .raised e =>
    { component_name := component_name
      validation_timestamp := ts
      overall_status := "FAIL"
      completeness_score := 0
      accuracy_score := 0
      issues_found := []
      issues_fixed := []
      verified_claims := []
      fixes_applied := 0
      meta_error := some e }

/-! ## Validation orchestrator (validation_orchestrator.py) -/

/-- Embeds the ValidationOrchestrationResult dataclass from
validation_orchestrator.py; orchestration_metadata is represented by the
reason entry, the only entry a claim mentions, and the wall-clock duration is
omitted. The source spells the third counter components_partial; it is
renamed partial_components here. -/
structure ValidationOrchestrationResult where
  total_components : Nat
  components_passed : Nat
  components_failed : Nat
  partial_components : Nat
  total_issues_found : Nat
  total_issues_fixed : Nat
  validation_results : List ValidationResult
  metadata_reason : Option String
deriving DecidableEq, Repr

/-- Embeds the selection loop of orchestrate_validation
(validation_orchestrator.py lines 80-89): only Phase-2 results with success
true are kept, joined to the first manifest component of the same name;
results without a matching manifest entry are silently skipped. -/
def select_successful_components (components : List Component)
    (results : List ComponentAnalysisResult) :
    List (Component × ComponentAnalysisResult) :=
  results.filterMap (fun r =>
    if r.success then
      match components.find? (fun c => c.name == r.component_name) with
      | some c => some (c, r)
      | none => none
    else none)

/-- Embeds the fallback naming of validation_orchestrator.py line 152. -/
def validation_fallback_name
    (sel : List (Component × ComponentAnalysisResult)) (i : Nat) : String :=
  match sel[i]? with
  | some p => p.1.name
  | none => "component_" ++ toString i

/-- Embeds the synthetic failed ValidationResult built for a raised
validation task (validation_orchestrator.py lines 153-164). -/
def validation_exception_result (component_name e ts : String) :
    ValidationResult :=
  { component_name := component_name
    validation_timestamp := ts
    overall_status := "FAIL"
    completeness_score := 0
    accuracy_score := 0
    issues_found := []
    issues_fixed := []
    verified_claims := []
    fixes_applied := 0
    meta_error := some e }

/-- Embeds the result-processing loop of orchestrate_validation
(validation_orchestrator.py lines 145-171): exceptions become synthetic
failed results keyed by position, everything else lands in the successful
list unchanged. Returns (successful_validations, failed_validations). -/
def partition_validation_outcomes
    (sel : List (Component × ComponentAnalysisResult)) (ts : String) :
    Nat → List (Except String ValidationResult) →
    List ValidationResult × List ValidationResult
  | _, [] => ([], [])
  | i, o :: rest =>
    let p := partition_validation_outcomes sel ts (i + 1) rest
    match o with
    | .error e =>
      (p.1, validation_exception_result (validation_fallback_name sel i) e ts :: p.2)
    | .ok r => (r :: p.1, p.2)

/-- Embeds ValidationOrchestrator.orchestrate_validation
(validation_orchestrator.py lines 44-222). The per-component validation is
abstracted as validate; the second component of the returned pair counts the
Validation Agent invocations performed (one per created task). An empty
selection returns the zero result with the no_successful_components reason
and performs no invocation; otherwise pass, fail and partial components are
tallied from overall_status and the issue totals are summed. -/
def orchestrate_validation (components : List Component)
    (orch : OrchestrationResult)
    (validate : Component → Except String ValidationResult) (ts : String) :
    ValidationOrchestrationResult × Nat :=
  let sel := select_successful_components components orch.component_results
  if sel.isEmpty then
    ({ total_components := 0
       components_passed := 0
       components_failed := 0
       partial_components := 0
       total_issues_found := 0
       total_issues_fixed := 0
       validation_results := []
       metadata_reason := some "no_successful_components" }, 0)
  else
    let outcomes := sel.map (fun p => validate p.1)
    let pr := partition_validation_outcomes sel ts 0 outcomes
    let all := pr.1 ++ pr.2
    ({ total_components := all.length
       components_passed := (all.filter (fun r => r.overall_status == "PASS")).length
       components_failed := (all.filter (fun r => r.overall_status == "FAIL")).length
       partial_components := (all.filter (fun r => r.overall_status == "PARTIAL")).length
       total_issues_found := (all.map (fun r => r.issues_found.length)).sum
       total_issues_fixed := (all.map (fun r => r.fixes_applied)).sum
       validation_results := all
       metadata_reason := none }, sel.length)

/-! ## Multi-agent builder (multi_agent_builder.py) -/

/-- Embeds BuildConfig (models/build_job.py) restricted to the fields the
builders read; auto_restart_on_early_termination and max_restart_attempts
are the restart policy fields consumed by core_builder.py. -/
structure BuildConfig where
  repo_path : String
  output_path : String
  max_turns : Nat
  auto_restart_on_early_termination : Bool
  max_restart_attempts : Nat
deriving DecidableEq, Repr

/-- Embeds the BuildResult model (models/build_job.py); the metadata map is
omitted, no claim mentions it. -/
structure BuildResult where
  success : Bool
  output_path : String
  files_written : List String
  errors : List String
deriving DecidableEq, Repr

/-- Embeds MultiAgentMemoryBankBuilder.build_memory_bank
(multi_agent_builder.py lines 32-208). The repository-path validation (lines
51-54) runs before the try block, so its ValueError propagates to the caller,
modelled as Except.error; phases is the outcome of the three-phase try body
(lines 59-196), its error value carrying str(e) of whatever exception the
body raised; a body exception is caught (lines 198-208) and converted to a
failed BuildResult. -/
def multi_agent_build_memory_bank (repo_exists repo_is_dir : Bool)
    (config : BuildConfig) (phases : Except String (List String)) :
    Except String BuildResult :=
  if !repo_exists then
    .error ("Repository path does not exist: " ++ config.repo_path)
  else if !repo_is_dir then
    .error ("Repository path is not a directory: " ++ config.repo_path)
  else
    match phases with
    | .error e =>
      .ok { success := false
            output_path := config.output_path
            files_written := []
            errors := [e] }
    | .ok files_written =>
      .ok { success := true
            output_path := config.output_path
            files_written := files_written
            errors := [] }

/-! ## Cost calculator (cost_calculator.py) -/

/-- Embeds ClaudeModel from cost_calculator.py. -/
inductive ClaudeModel where
  | claude_4_opus
  | claude_4_sonnet
  | claude_35_sonnet
  | claude_35_haiku
  | claude_3_opus
  | claude_3_sonnet
  | claude_3_haiku
deriving DecidableEq, Repr

/-- Embeds the ModelPricing dataclass from cost_calculator.py; monetary
values are exact rationals. -/
structure ModelPricing where
  input_cost_per_million : ℚ
  output_cost_per_million : ℚ
  model_name : String
deriving DecidableEq, Repr

/-- Embeds the CLAUDE_PRICING table of cost_calculator.py lines 38-46. -/
def claude_pricing : ClaudeModel → ModelPricing
  | .claude_4_opus => { input_cost_per_million := 15, output_cost_per_million := 75, model_name := "Claude 4 Opus" }
  | .claude_4_sonnet => { input_cost_per_million := 3, output_cost_per_million := 15, model_name := "Claude 4 Sonnet" }
  | .claude_35_sonnet => { input_cost_per_million := 3, output_cost_per_million := 15, model_name := "Claude 3.5 Sonnet" }
  | .claude_35_haiku => { input_cost_per_million := 4/5, output_cost_per_million := 4, model_name := "Claude 3.5 Haiku" }
  | .claude_3_opus => { input_cost_per_million := 15, output_cost_per_million := 75, model_name := "Claude 3 Opus" }
  | .claude_3_sonnet => { input_cost_per_million := 3, output_cost_per_million := 15, model_name := "Claude 3 Sonnet" }
  | .claude_3_haiku => { input_cost_per_million := 1/4, output_cost_per_million := 5/4, model_name := "Claude 3 Haiku" }

/-- Embeds the TokenUsage dataclass from cost_calculator.py. -/
structure TokenUsage where
  input_tokens : Int
  output_tokens : Int
  operation_name : String
  component_name : Option String
deriving DecidableEq, Repr

/-- Embeds the CostBreakdown dataclass from cost_calculator.py restricted to
the aggregate fields; phase_costs, component_costs and operation_costs are
per-group regroupings of the same sums and no claim mentions them. -/
structure CostBreakdown where
  total_input_tokens : Int
  total_output_tokens : Int
  total_tokens : Int
  input_cost : ℚ
  output_cost : ℚ
  total_cost : ℚ
  model_used : String
deriving DecidableEq, Repr

/-- The per-operation cost of one usage entry (cost_calculator.py lines
175-177). -/
def operation_cost (pricing : ModelPricing) (u : TokenUsage) : ℚ :=
  (u.input_tokens : ℚ) / 1000000 * pricing.input_cost_per_million +
    (u.output_tokens : ℚ) / 1000000 * pricing.output_cost_per_million

/-- Embeds CostCalculator.calculate_cost (cost_calculator.py lines 114-198):
the zero breakdown on an empty accumulation list, otherwise the token sums
and the costs computed from them, with Python float arithmetic embedded as
exact rational arithmetic. -/
def calculate_cost (pricing : ModelPricing) (usages : List TokenUsage) :
    CostBreakdown :=
  if usages.isEmpty then
    { total_input_tokens := 0
      total_output_tokens := 0
      total_tokens := 0
      input_cost := 0
      output_cost := 0
      total_cost := 0
      model_used := pricing.model_name }
  else
    let total_input : Int := (usages.map (fun u => u.input_tokens)).sum
    let total_output : Int := (usages.map (fun u => u.output_tokens)).sum
    let input_cost := ((total_input : ℚ) / 1000000) * pricing.input_cost_per_million
    let output_cost := ((total_output : ℚ) / 1000000) * pricing.output_cost_per_million
    { total_input_tokens := total_input
      total_output_tokens := total_output
      total_tokens := total_input + total_output
      input_cost := input_cost
      output_cost := output_cost
      total_cost := input_cost + output_cost
      model_used := pricing.model_name }

/-! ## Semaphore bulkhead (orchestration_agent.py lines 77-93, 167-208) -/

/-- The phase of one component task in the fan-out of
orchestrate_component_analysis: created but not yet holding a semaphore
permit, holding a permit while its Component Agent invocation runs, or
completed. The async-with block of _analyze_component_with_semaphore releases
the permit on exit whether the invocation returned or raised, so completion
is a single phase here. -/
inductive TaskPhase where
  | pending
  | running
  | done
deriving DecidableEq, Repr

/-- The shared state of the fan-out: the free permit count of the counting
semaphore built by asyncio.Semaphore(max_concurrent_agents) and the phase of
each scheduled component task. -/
structure SemState where
  permits : Nat
  tasks : List TaskPhase
deriving DecidableEq, Repr

/-- Number of Component Agent invocations currently running. -/
def running_count (ts : List TaskPhase) : Nat :=
  (ts.filter (fun t => t == TaskPhase.running)).length

/-- The initial fan-out state of orchestrate_component_analysis lines 77-93:
a semaphore with k free permits and one immediately scheduled, still pending
task per manifest component. -/
def init_sem_state (k n : Nat) : SemState :=
  { permits := k, tasks := List.replicate n TaskPhase.pending }

/-- The admissible steps of the cooperative event loop running
_analyze_component_with_semaphore: a pending task enters the async-with block
only by taking a free permit, and a running task completes, by returning or
raising, giving its permit back. -/
inductive SemStep : SemState → SemState → Prop where
  | acquire (s : SemState) (i : Nat)
      (hp : s.tasks[i]? = some TaskPhase.pending) (hfree : 0 < s.permits) :
      SemStep s
        { permits := s.permits - 1, tasks := s.tasks.set i TaskPhase.running }
  | release (s : SemState) (i : Nat)
      (hr : s.tasks[i]? = some TaskPhase.running) :
      SemStep s
        { permits := s.permits + 1, tasks := s.tasks.set i TaskPhase.done }

/-- States reachable by the event loop from the initial fan-out state. -/
def sem_reachable (k n : Nat) (s : SemState) : Prop :=
  Relation.ReflTransGen SemStep (init_sem_state k n) s

/-! ## Restart controller (core_builder.py, _execute_claude_build_with_restart) -/

/-- The four designated core memory-bank files (core_builder.py line 249). -/
def core_files : List String :=
  ["projectbrief.md", "productContext.md", "systemPatterns.md",
   "techContext.md"]

/-- Embeds the dedup accumulation of core_builder.py lines 239-241: each file
of the attempt is appended to the running total unless already present. -/
def accumulate_files (all fs : List String) : List String :=
  fs.foldl (fun acc f => if acc.contains f then acc else acc ++ [f]) all

/-- The mutable locals of the while loop of
_execute_claude_build_with_restart (core_builder.py lines 221-224), plus:
dir_bound records whether the locals memory_bank_dir and existing_core_files
have been assigned yet, which happens only inside the branch taken when an
attempt wrote at least one file (lines 248-255), so reading them before that
raises UnboundLocalError, caught by the broad except of line 311;
existing_core is their last assigned value; invocations counts the calls of
_execute_claude_build performed. -/
structure RestartState where
  all_files : List String
  attempt : Nat
  prev_count : Nat
  dir_bound : Bool
  existing_core : List String
  invocations : Nat
deriving DecidableEq, Repr

/-- Embeds the while loop of _execute_claude_build_with_restart
(core_builder.py lines 225-320). invoke is the outcome of
_execute_claude_build on each attempt: the files written, or the message of a
raised exception; core_on_disk gives the core files present on disk when an
attempt that wrote files checks them (lines 252-255). Fuel bounds the
recursion; the attempt counter strictly increases, so max_attempts + 1 fuel
suffices and fuel zero coincides with the while condition failing (line 320
returns the accumulated list). An error result models the re-raise of line
318. Reading an unbound local in the zero-files restart path (line 276) or
in the elif guard (line 288) raises UnboundLocalError inside the try, which
the except of line 311 retries or re-raises like any other exception. -/
def restart_loop (invoke : Nat → Except String (List String))
    (core_on_disk : Nat → List String) (auto_restart : Bool)
    (max_attempts : Nat) :
    Nat → RestartState → Except String (List String) × Nat
  | 0, st => (.ok st.all_files, st.invocations)
  | fuel + 1, st =>
    if st.attempt > max_attempts then (.ok st.all_files, st.invocations)
    else
      match invoke st.attempt with
      | .error e =>
        if st.attempt < max_attempts then
          restart_loop invoke core_on_disk auto_restart max_attempts fuel
            { st with attempt := st.attempt + 1,
                      invocations := st.invocations + 1 }
        else (.error e, st.invocations + 1)
      | .ok fs =>
        let all2 := accumulate_files st.all_files fs
        let inv2 := st.invocations + 1
        let files_nonzero := decide (0 < fs.length)
        let core2 := if files_nonzero then
            core_files.filter (fun f => (core_on_disk st.attempt).contains f)
          else st.existing_core
        let bound2 := st.dir_bound || files_nonzero
        if files_nonzero && decide (2 ≤ core2.length) then (.ok all2, inv2)
        else if auto_restart && decide (fs.length = 0) then
          if all2.length = st.prev_count ∧ st.attempt > 1 then (.ok all2, inv2)
          else if st.attempt < max_attempts then
            if bound2 then
              restart_loop invoke core_on_disk auto_restart max_attempts fuel
                { all_files := all2, attempt := st.attempt + 1,
                  prev_count := all2.length, dir_bound := bound2,
                  existing_core := core2, invocations := inv2 }
            else
              restart_loop invoke core_on_disk auto_restart max_attempts fuel
                { all_files := all2, attempt := st.attempt + 1,
                  prev_count := st.prev_count, dir_bound := bound2,
                  existing_core := core2, invocations := inv2 }
          else (.ok all2, inv2)
        else if !bound2 then
          if st.attempt < max_attempts then
            restart_loop invoke core_on_disk auto_restart max_attempts fuel
              { all_files := all2, attempt := st.attempt + 1,
                prev_count := st.prev_count, dir_bound := bound2,
                existing_core := core2, invocations := inv2 }
          else (.error "UnboundLocalError: existing_core_files", inv2)
        else if decide (core2.length < 2) && files_nonzero then
          if st.attempt < max_attempts then
            restart_loop invoke core_on_disk auto_restart max_attempts fuel
              { all_files := all2, attempt := st.attempt + 1,
                prev_count := st.prev_count, dir_bound := bound2,
                existing_core := core2, invocations := inv2 }
          else (.ok all2, inv2)
        else (.ok all2, inv2)

/-- Embeds _execute_claude_build_with_restart itself: the loop started at
attempt 1 with empty accumulation and unbound directory locals, returning the
file-list outcome paired with the number of invocation attempts made. -/
def execute_claude_build_with_restart
    (invoke : Nat → Except String (List String))
    (core_on_disk : Nat → List String) (config : BuildConfig) :
    Except String (List String) × Nat :=
  restart_loop invoke core_on_disk config.auto_restart_on_early_termination
    config.max_restart_attempts (config.max_restart_attempts + 1)
    { all_files := [], attempt := 1, prev_count := 0, dir_bound := false,
      existing_core := [], invocations := 0 }

/-! ## Concrete sample inputs used by witnesses and counterexamples -/

/-- Sample component list mirroring the spec scenario with components A, B, C. -/
def sample_components : List Component :=
  [{ name := "A", type := .service, path := "/a", technology := "python",
     complexity := "low", dependencies := [], description := "a" },
   { name := "B", type := .module, path := "/b", technology := "python",
     complexity := "low", dependencies := [], description := "b" },
   { name := "C", type := .library, path := "/c", technology := "python",
     complexity := "low", dependencies := [], description := "c" }]

/-- Sample outcomes: A and C succeed, the task for B raises. -/
def sample_outcomes : List (Except String ComponentAnalysisResult) :=
  [.ok { component_name := "A", success := true, output_path := "/out/A",
         files_written := [], created_files := expected_files,
         missing_files := [], errors := [] },
   .error "boom",
   .ok { component_name := "C", success := true, output_path := "/out/C",
         files_written := [], created_files := expected_files,
         missing_files := [], errors := [] }]

/-- A small well-formed architecture manifest in the markdown format the
architecture agent instructs the invoked model to write. -/
def sample_manifest_md : String :=
  "# Architecture Analysis\n\n## System Type\nModular Monolith\n\n## Architecture Diagram\n```mermaid\ngraph TD\n    A --> B\n```\n\n## Components\n\n### Component: Core\n- **Type**: module\n- **Path**: /core\n- **Technology**: Python\n- **Complexity**: high\n- **Dependencies**: \n- **Description**: Core orchestration\n\n### Component: API\n- **Type**: backend\n- **Path**: /api\n- **Technology**: FastAPI\n- **Complexity**: medium\n- **Dependencies**: Core, Shared\n- **Description**: HTTP API\n\n## Analysis Metadata\n- Total Components: 2\n"

/-- A sample invocation stream that writes the manifest file. -/
def sample_stream : List ToolEvent :=
  [{ tool := "LS", file_path := "" },
   { tool := "Write", file_path := "/out/architecture_manifest.md" }]

/-- A sample build configuration pointing at a nonexistent repository. -/
def sample_config : BuildConfig :=
  { repo_path := "/nonexistent"
    output_path := "/out"
    max_turns := 200
    auto_restart_on_early_termination := true
    max_restart_attempts := 3 }

/-- A sample Phase-2 result in which the single component failed. -/
def sample_failed_orch : OrchestrationResult :=
  { total_components := 1
    successful_components := 0
    failed_components := 1
    component_results := [exception_failed_result "B" "boom"] }

/-- A sample fan-out state: one of three tasks holds a permit of a
two-permit semaphore. -/
def sample_sem_state : SemState :=
  { permits := 1,
    tasks := [TaskPhase.running, TaskPhase.pending, TaskPhase.pending] }

end MemoryBankCore

namespace MemoryBankCore

/-! ## Helper lemmas for the orchestration partition -/

theorem partition_component_outcomes_length (components : List Component)
    (i : Nat) (outcomes : List (Except String ComponentAnalysisResult)) :
    (partition_component_outcomes components i outcomes).1.length +
      (partition_component_outcomes components i outcomes).2.length =
      outcomes.length := by
  induction outcomes generalizing i with
  | nil => simp [partition_component_outcomes]
  | cons o rest ih =>
    cases o with
    | error e =>
      simp only [partition_component_outcomes, List.length_cons]
      have := ih (i + 1)
      omega
    | ok r =>
      simp only [partition_component_outcomes, List.length_cons]
      by_cases hr : r.success
      · simp only [hr, if_pos, List.length_cons]
        have := ih (i + 1)
        omega
      · simp only [hr, if_neg, List.length_cons, Bool.false_eq_true,
          not_false_eq_true]
        have := ih (i + 1)
        omega

theorem partition_component_outcomes_mem_error (components : List Component)
    (i0 : Nat) (outcomes : List (Except String ComponentAnalysisResult))
    (i : Nat) (e : String) (h : outcomes[i]? = some (.error e)) :
    exception_failed_result (fallback_component_name components (i0 + i)) e ∈
      (partition_component_outcomes components i0 outcomes).2 := by
  induction outcomes generalizing i0 i with
  | nil => simp at h
  | cons o rest ih =>
    cases i with
    | zero =>
      simp only [List.getElem?_cons_zero, Option.some.injEq] at h
      subst h
      simp [partition_component_outcomes]
    | succ j =>
      simp only [List.getElem?_cons_succ] at h
      have hmem := ih (i0 + 1) j h
      have harith : i0 + 1 + j = i0 + (j + 1) := by omega
      rw [harith] at hmem
      cases o with
      | error e2 => simpa [partition_component_outcomes] using Or.inr hmem
      | ok r =>
        simp only [partition_component_outcomes]
        by_cases hr : r.success <;> simp [hr, hmem]

theorem partition_component_outcomes_mem_ok (components : List Component)
    (i0 : Nat) (outcomes : List (Except String ComponentAnalysisResult))
    (i : Nat) (r : ComponentAnalysisResult) (h : outcomes[i]? = some (.ok r)) :
    r ∈ (partition_component_outcomes components i0 outcomes).1 ∨
      r ∈ (partition_component_outcomes components i0 outcomes).2 := by
  induction outcomes generalizing i0 i with
  | nil => simp at h
  | cons o rest ih =>
    cases i with
    | zero =>
      simp only [List.getElem?_cons_zero, Option.some.injEq] at h
      subst h
      by_cases hr : r.success <;> simp [partition_component_outcomes, hr]
    | succ j =>
      simp only [List.getElem?_cons_succ] at h
      have hmem := ih (i0 + 1) j h
      cases o with
      | error e2 =>
        simp only [partition_component_outcomes]
        rcases hmem with hm | hm
        · exact Or.inl hm
        · exact Or.inr (List.mem_cons_of_mem _ hm)
      | ok r2 =>
        simp only [partition_component_outcomes]
        by_cases hr2 : r2.success
        · simp only [hr2, if_pos]
          rcases hmem with hm | hm
          · exact Or.inl (List.mem_cons_of_mem _ hm)
          · exact Or.inr hm
        · simp only [hr2, if_neg, Bool.false_eq_true, not_false_eq_true]
          rcases hmem with hm | hm
          · exact Or.inl hm
          · exact Or.inr (List.mem_cons_of_mem _ hm)

/-! ## Claim C1 theorems -/

/-- C1: for a run of ComponentAgent.analyze_component whose invocation stream
completes without an exception, the returned success flag is true iff each of
the 6 expected files exists in the component memory-bank output directory with
size strictly greater than 100 bytes, and equivalently success is true iff
missing_files is empty. -/
theorem c1_component_success_definition
    (name out : String) (fw : List String) (fs : String → Option Nat) :
    ((analyze_component_result name out fw fs).success = true ↔
      ∀ f ∈ expected_files, ∃ n, fs f = some n ∧ 100 < n) ∧
    ((analyze_component_result name out fw fs).success = true ↔
      (analyze_component_result name out fw fs).missing_files = []) := by
  constructor
  · simp only [analyze_component_result, Nat.beq_eq_true_eq, List.length_eq_zero,
      List.filter_eq_nil_iff]
    constructor
    · intro h f hf
      have := h f hf
      simp only [Bool.not_eq_true', file_ok] at this
      cases hfs : fs f with
      | none => rw [hfs] at this; simp at this
      | some n =>
        rw [hfs] at this
        simp only [decide_eq_false_iff_not, not_lt] at this
        exact ⟨n, rfl, by omega⟩
    · intro h f hf
      obtain ⟨n, hn, hlt⟩ := h f hf
      simp [file_ok, hn, hlt]
  · simp only [analyze_component_result, Nat.beq_eq_true_eq, List.length_eq_zero]

/-! ## Claim C2 theorems -/

/-- C2: for every manifest component list and positional assignment of task
outcomes (a returned ComponentAnalysisResult or a raised exception per
component), orchestrate_component_analysis yields total_components equal to
the number of manifest components, successful plus failed equal to total,
a synthetic failed result (success false, errors = [message]) named after the
component at the raising position for every raised task, and every returned
result present unchanged in component_results. -/
theorem c2_orchestration_isolation (components : List Component)
    (outcomes : List (Except String ComponentAnalysisResult))
    (h : outcomes.length = components.length) :
    (orchestrate_component_analysis components outcomes).total_components =
      components.length ∧
    (orchestrate_component_analysis components outcomes).successful_components +
      (orchestrate_component_analysis components outcomes).failed_components =
      (orchestrate_component_analysis components outcomes).total_components ∧
    (∀ (i : Nat) (e : String), outcomes[i]? = some (.error e) →
      ∃ c, components[i]? = some c ∧
        exception_failed_result c.name e ∈
          (orchestrate_component_analysis components outcomes).component_results) ∧
    (∀ (i : Nat) (r : ComponentAnalysisResult), outcomes[i]? = some (.ok r) →
      r ∈ (orchestrate_component_analysis components outcomes).component_results) := by
  refine ⟨rfl, ?_, ?_, ?_⟩
  · simpa [orchestrate_component_analysis, h] using
      partition_component_outcomes_length components 0 outcomes
  · intro i e he
    have hi : i < outcomes.length := by
      by_contra hge
      rw [List.getElem?_eq_none (by omega)] at he
      exact Option.noConfusion he
    have hic : i < components.length := by omega
    have hc : components[i]? = some (components.get ⟨i, hic⟩) :=
      List.getElem?_eq_getElem hic
    set c := components.get ⟨i, hic⟩ with hcdef
    refine ⟨c, hc, ?_⟩
    have hmem := partition_component_outcomes_mem_error components 0 outcomes i e he
    have hname : fallback_component_name components (0 + i) = c.name := by
      simp [fallback_component_name, hc]
    rw [hname] at hmem
    simp only [orchestrate_component_analysis, List.mem_append]
    exact Or.inr hmem
  · intro i r hr
    have hmem := partition_component_outcomes_mem_ok components 0 outcomes i r hr
    simp only [orchestrate_component_analysis, List.mem_append]
    exact hmem

/-- Witness for C2 at the spec scenario: three components, B raising. -/
theorem c2_orchestration_isolation_witness :
    sample_outcomes.length = sample_components.length ∧
    (orchestrate_component_analysis sample_components sample_outcomes).total_components = 3 ∧
    (orchestrate_component_analysis sample_components sample_outcomes).successful_components +
      (orchestrate_component_analysis sample_components sample_outcomes).failed_components =
      (orchestrate_component_analysis sample_components sample_outcomes).total_components := by
  refine ⟨rfl, ?_, ?_⟩
  · exact (c2_orchestration_isolation sample_components sample_outcomes rfl).1
  · exact (c2_orchestration_isolation sample_components sample_outcomes rfl).2.1

/-! ## Claim C4 theorems -/

/-- C4: ArchitectureAgent.analyze fails whenever the repository path does not
exist or is not a directory, fails whenever the invocation stream ends
without the manifest having been written to the expected path, these are the
only failure modes, and otherwise it returns the parsed manifest. -/
theorem c4_architecture_analyze_failure_modes
    (repo_exists repo_is_dir : Bool) (stream : List ToolEvent)
    (manifest_file : Option String) (tc mt : Nat) (now : String) :
    ((analyze repo_exists repo_is_dir stream manifest_file tc mt now).isOk = true ↔
      repo_exists = true ∧ repo_is_dir = true ∧
        manifest_write_seen stream = true ∧ manifest_file.isSome = true) ∧
    (repo_exists = false →
      analyze repo_exists repo_is_dir stream manifest_file tc mt now =
        .error "Repository path does not exist") ∧
    (repo_exists = true → repo_is_dir = false →
      analyze repo_exists repo_is_dir stream manifest_file tc mt now =
        .error "Repository path is not a directory") ∧
    (∀ content, repo_exists = true → repo_is_dir = true →
      manifest_write_seen stream = true → manifest_file = some content →
      analyze repo_exists repo_is_dir stream manifest_file tc mt now =
        .ok (parse_manifest content now)) := by
  refine ⟨?_, ?_, ?_, ?_⟩
  · cases repo_exists <;> cases repo_is_dir <;>
      cases hw : manifest_write_seen stream <;> cases manifest_file <;>
      simp [analyze, hw, Except.isOk, Except.toBool]
  · intro h; subst h; simp [analyze]
  · intro h1 h2; subst h1; subst h2; simp [analyze]
  · intro content h1 h2 hw hm
    subst h1; subst h2; subst hm
    simp [analyze, hw]

set_option maxRecDepth 8192 in
/-- Witness for C4: a run over an existing repository directory whose stream
writes the manifest returns the parsed manifest. -/
theorem c4_architecture_analyze_failure_modes_witness :
    manifest_write_seen sample_stream = true ∧
    analyze true true sample_stream (some sample_manifest_md) 10 200 "T0" =
      .ok (parse_manifest sample_manifest_md "T0") := by
  refine ⟨by decide, ?_⟩
  exact (c4_architecture_analyze_failure_modes true true sample_stream
    (some sample_manifest_md) 10 200 "T0").2.2.2 sample_manifest_md rfl rfl
    (by decide) rfl

/-! ## Claim C10 theorems -/

/-- C10 counterexample: parsing the same well-formed manifest twice, at two
different wall-clock instants, does not yield ArchitectureManifest objects
equal in every field, because generated_at records datetime.now() at parse
time. -/
theorem c10_parse_not_fully_equal :
    parse_manifest sample_manifest_md "2025-01-01T00:00:00" ≠
      parse_manifest sample_manifest_md "2025-01-01T00:00:01" := by
  intro h
  have hg := congrArg ArchitectureManifest.generated_at h
  simp only [parse_manifest] at hg
  exact absurd hg (by decide)

/-- C10 amended: parsing the same manifest markdown twice yields
ArchitectureManifest objects equal in every field except generated_at, which
records the wall-clock parse time; with the timestamp fixed, parsing is fully
deterministic. -/
theorem c10_parse_deterministic_modulo_timestamp (content t1 t2 : String) :
    (parse_manifest content t1).system_type =
      (parse_manifest content t2).system_type ∧
    (parse_manifest content t1).architecture_diagram =
      (parse_manifest content t2).architecture_diagram ∧
    (parse_manifest content t1).components =
      (parse_manifest content t2).components ∧
    (parse_manifest content t1).total_components =
      (parse_manifest content t2).total_components ∧
    (parse_manifest content t1).estimated_parallel_agents =
      (parse_manifest content t2).estimated_parallel_agents ∧
    (parse_manifest content t1).breakdown_rationale =
      (parse_manifest content t2).breakdown_rationale ∧
    (parse_manifest content t1).analyzer_version =
      (parse_manifest content t2).analyzer_version ∧
    (parse_manifest content t1).analysis_duration =
      (parse_manifest content t2).analysis_duration :=
  ⟨rfl, rfl, rfl, rfl, rfl, rfl, rfl, rfl⟩

/-! ## Claim C3 theorems -/

/-- C3 counterexample: with a repository path that does not exist,
build_memory_bank raises ValueError to its caller instead of returning a
BuildResult, because the path validation runs before the try block. -/
theorem c3_build_raises_on_missing_repo_path :
    multi_agent_build_memory_bank false true sample_config (.ok []) =
      .error "Repository path does not exist: /nonexistent" := rfl

/-- C3 amended: once the repository path validation has passed (the path
exists and is a directory), build_memory_bank never propagates an exception:
any exception raised in the three-phase try body is caught and converted to
a BuildResult with success false and errors equal to the singleton exception
message, and a completed body yields a successful BuildResult. Exceptions
from the path validation itself, which precedes the try block, propagate to
the caller. -/
theorem c3_build_terminal_result_after_validation (config : BuildConfig)
    (phases : Except String (List String)) :
    (multi_agent_build_memory_bank true true config phases).isOk = true ∧
    (∀ e, phases = .error e →
      multi_agent_build_memory_bank true true config phases =
        .ok { success := false
              output_path := config.output_path
              files_written := []
              errors := [e] }) ∧
    (∀ fw, phases = .ok fw →
      multi_agent_build_memory_bank true true config phases =
        .ok { success := true
              output_path := config.output_path
              files_written := fw
              errors := [] }) := by
  cases phases <;>
    simp [multi_agent_build_memory_bank, Except.isOk, Except.toBool]

/-- Witness for the amended C3 at the spec scenario: the architecture phase
raising the manifest-not-produced error yields a terminal failed result. -/
theorem c3_build_terminal_result_after_validation_witness :
    multi_agent_build_memory_bank true true sample_config
        (.error "Architecture manifest was not created") =
      .ok { success := false
            output_path := "/out"
            files_written := []
            errors := ["Architecture manifest was not created"] } :=
  (c3_build_terminal_result_after_validation sample_config
    (.error "Architecture manifest was not created")).2.1
    "Architecture manifest was not created" rfl

/-! ## Claim C5 theorems -/

/-- C5: when the Phase-2 result contains no successful component result,
orchestrate_validation returns immediately with the all-zero result, an empty
validation_results list, the no_successful_components metadata tag, and zero
Validation Agent invocations; moreover only components with success true and
a name-matching manifest entry are ever selected for validation. -/
theorem c5_validation_gating (components : List Component)
    (orch : OrchestrationResult)
    (validate : Component → Except String ValidationResult) (ts : String)
    (h : ∀ r ∈ orch.component_results, r.success = false) :
    (orchestrate_validation components orch validate ts).1.total_components = 0 ∧
    (orchestrate_validation components orch validate ts).1.components_passed = 0 ∧
    (orchestrate_validation components orch validate ts).1.components_failed = 0 ∧
    (orchestrate_validation components orch validate ts).1.partial_components = 0 ∧
    (orchestrate_validation components orch validate ts).1.total_issues_found = 0 ∧
    (orchestrate_validation components orch validate ts).1.total_issues_fixed = 0 ∧
    (orchestrate_validation components orch validate ts).1.validation_results = [] ∧
    (orchestrate_validation components orch validate ts).1.metadata_reason =
      some "no_successful_components" ∧
    (orchestrate_validation components orch validate ts).2 = 0 ∧
    (∀ c cr, (c, cr) ∈ select_successful_components components orch.component_results →
      cr.success = true ∧ c ∈ components ∧ c.name = cr.component_name) := by
  have hsel : select_successful_components components orch.component_results = [] := by
    rw [select_successful_components, List.filterMap_eq_nil_iff]
    intro r hr
    simp [h r hr]
  refine ⟨?_, ?_, ?_, ?_, ?_, ?_, ?_, ?_, ?_, ?_⟩
  all_goals first
  | · intro c cr hm
      rw [select_successful_components, List.mem_filterMap] at hm
      obtain ⟨r, hr, hfr⟩ := hm
      cases hsucc : r.success with
      | false => rw [hsucc] at hfr; simp at hfr
      | true =>
        rw [hsucc] at hfr
        simp only [if_pos] at hfr
        cases hfind : components.find? (fun c => c.name == r.component_name) with
        | none => rw [hfind] at hfr; simp at hfr
        | some c0 =>
          rw [hfind] at hfr
          simp only [Option.some.injEq, Prod.mk.injEq] at hfr
          obtain ⟨hc, hrr⟩ := hfr
          subst hc; subst hrr
          refine ⟨hsucc, List.mem_of_find?_eq_some hfind, ?_⟩
          have := List.find?_some hfind
          exact (beq_iff_eq.mp this)
  | simp [orchestrate_validation, hsel]

/-- Witness for C5: a one-component Phase-2 result whose only component
failed leads to the all-zero validation result and zero invocations. -/
theorem c5_validation_gating_witness :
    (∀ r ∈ sample_failed_orch.component_results, r.success = false) ∧
    (orchestrate_validation sample_components sample_failed_orch
      (fun _ => .error "not invoked") "T0").1.total_components = 0 ∧
    (orchestrate_validation sample_components sample_failed_orch
      (fun _ => .error "not invoked") "T0").2 = 0 := by
  have h : ∀ r ∈ sample_failed_orch.component_results, r.success = false := by
    decide
  refine ⟨h, ?_, ?_⟩
  · exact (c5_validation_gating sample_components sample_failed_orch
      (fun _ => .error "not invoked") "T0" h).1
  · exact (c5_validation_gating sample_components sample_failed_orch
      (fun _ => .error "not invoked") "T0" h).2.2.2.2.2.2.2.2.1

/-! ## Claim C9 theorems -/

/-- C9: every ValidationResult produced by validate_and_fix_component, in
each of its three branches, and every synthetic result produced by the
validation orchestrator for a raised task, satisfies
fixes_applied = len(issues_fixed); and when a report is parsed, issues_found
is the converted issue list and issues_fixed is exactly the sublist of
entries whose report entry is marked fixed. -/
theorem c9_fixes_applied_matches_issues_fixed :
    (∀ name ts outcome,
      (validate_and_fix_component name ts outcome).fixes_applied =
        (validate_and_fix_component name ts outcome).issues_fixed.length) ∧
    (∀ name ts r,
      (validate_and_fix_component name ts (.report r)).issues_found =
        r.issues.map to_validation_issue ∧
      (validate_and_fix_component name ts (.report r)).issues_fixed =
        (r.issues.filter (fun d => d.fixed)).map to_validation_issue) ∧
    (∀ name e ts,
      (validation_exception_result name e ts).fixes_applied =
        (validation_exception_result name e ts).issues_fixed.length) := by
  refine ⟨?_, ?_, ?_⟩
  · intro name ts outcome
    cases outcome <;> rfl
  · intro name ts r
    exact ⟨rfl, rfl⟩
  · intro name e ts
    rfl

/-! ## Claim C8 theorems -/

theorem list_sum_map_add {α : Type} (l : List α) (f g : α → ℚ) :
    (l.map (fun x => f x + g x)).sum = (l.map f).sum + (l.map g).sum := by
  induction l with
  | nil => simp
  | cons a t ih =>
    simp only [List.map_cons, List.sum_cons, ih]
    ring

theorem sum_int_div_mul (l : List Int) (p : ℚ) :
    ((l.sum : Int) : ℚ) / 1000000 * p =
      (l.map (fun (n : Int) => (n : ℚ) / 1000000 * p)).sum := by
  induction l with
  | nil => simp
  | cons a t ih =>
    simp only [List.sum_cons, List.map_cons, Int.cast_add]
    rw [← ih]
    ring

/-- C8: for every pricing table and every sequence of token usage entries,
calculate_cost yields total_cost equal to the sum over entries of
input_tokens divided by one million times the input price plus output_tokens
divided by one million times the output price, as an exact arithmetic
identity over rationals, and total_tokens equal to total input plus total
output tokens. Python float arithmetic is embedded as exact rational
arithmetic, matching the spec phrasing of the property as an exact
identity. -/
theorem c8_cost_fold_identity (pricing : ModelPricing)
    (usages : List TokenUsage) :
    (calculate_cost pricing usages).total_cost =
      (usages.map (fun u => operation_cost pricing u)).sum ∧
    (calculate_cost pricing usages).total_tokens =
      (calculate_cost pricing usages).total_input_tokens +
        (calculate_cost pricing usages).total_output_tokens := by
  constructor
  · by_cases hnil : usages.isEmpty
    · rw [List.isEmpty_iff] at hnil
      subst hnil
      simp [calculate_cost]
    · simp only [calculate_cost, hnil, Bool.false_eq_true, if_neg,
        not_false_eq_true]
      rw [sum_int_div_mul, sum_int_div_mul, List.map_map, List.map_map,
        ← list_sum_map_add]
      rfl
  · by_cases hnil : usages.isEmpty
    · rw [List.isEmpty_iff] at hnil
      subst hnil
      simp [calculate_cost]
    · simp [calculate_cost, hnil]

/-! ## Helper lemmas for the semaphore invariant -/

theorem running_count_replicate_pending (n : Nat) :
    running_count (List.replicate n TaskPhase.pending) = 0 := by
  induction n with
  | zero => rfl
  | succ m ih =>
    simp only [List.replicate_succ, running_count, List.filter_cons] at *
    simp [ih]

theorem running_count_set_run (l : List TaskPhase) (i : Nat)
    (h : l[i]? = some TaskPhase.pending) :
    running_count (l.set i TaskPhase.running) = running_count l + 1 := by
  induction l generalizing i with
  | nil => simp at h
  | cons a t ih =>
    cases i with
    | zero =>
      simp only [List.getElem?_cons_zero, Option.some.injEq] at h
      subst h
      simp [running_count, List.filter_cons]
    | succ j =>
      simp only [List.getElem?_cons_succ] at h
      have ihj := ih j h
      simp only [List.set_cons_succ, running_count, List.filter_cons] at ihj ⊢
      cases a <;> simp_all

theorem running_count_set_done (l : List TaskPhase) (i : Nat)
    (h : l[i]? = some TaskPhase.running) :
    running_count (l.set i TaskPhase.done) + 1 = running_count l := by
  induction l generalizing i with
  | nil => simp at h
  | cons a t ih =>
    cases i with
    | zero =>
      simp only [List.getElem?_cons_zero, Option.some.injEq] at h
      subst h
      simp [running_count, List.filter_cons]
    | succ j =>
      simp only [List.getElem?_cons_succ] at h
      have ihj := ih j h
      simp only [List.set_cons_succ, running_count, List.filter_cons] at ihj ⊢
      cases a <;> simp_all

theorem sem_step_invariant {k : Nat} {s t : SemState} (hstep : SemStep s t)
    (hinv : s.permits + running_count s.tasks = k) :
    t.permits + running_count t.tasks = k := by
  cases hstep with
  | acquire i hp hfree =>
    have h1 := running_count_set_run s.tasks i hp
    simp only at *
    omega
  | release i hr =>
    have h1 := running_count_set_done s.tasks i hr
    simp only at *
    omega

theorem sem_reachable_invariant (k n : Nat) (s : SemState)
    (h : sem_reachable k n s) :
    s.permits + running_count s.tasks = k := by
  induction h with
  | refl => simp [init_sem_state, running_count_replicate_pending]
  | tail hsteps hstep ih => exact sem_step_invariant hstep ih

/-! ## Claim C6 theorems -/

/-- C6: with max_concurrent_agents k and any manifest with at least k
components, every state the cooperative event loop can reach from the
initial fan-out state has at most k Component Agent invocations running
simultaneously: the free permits plus the running tasks always total k,
because each task acquires the counting semaphore before invoking its
Component Agent and releases it on completion, whether the invocation
returned or raised. -/
theorem c6_concurrency_bound (k n : Nat) (s : SemState) (_hk : k ≤ n)
    (hreach : sem_reachable k n s) :
    running_count s.tasks ≤ k := by
  have := sem_reachable_invariant k n s hreach
  omega

/-- Witness for C6: after one acquire step from the initial state with two
permits and three tasks, the reachable state has at most two running
invocations. -/
theorem c6_concurrency_bound_witness :
    (2 : Nat) ≤ 3 ∧ sem_reachable 2 3 sample_sem_state ∧
    running_count sample_sem_state.tasks ≤ 2 := by
  have hstep : SemStep (init_sem_state 2 3) sample_sem_state := by
    have h := SemStep.acquire (init_sem_state 2 3) 0 (by rfl) (by decide)
    exact h
  have hreach : sem_reachable 2 3 sample_sem_state :=
    Relation.ReflTransGen.single hstep
  exact ⟨by omega, hreach,
    c6_concurrency_bound 2 3 sample_sem_state (by omega) hreach⟩

/-! ## Claim C7 theorems -/

/-- C7: with auto restart enabled and max_restart_attempts at least 2, when
every invocation attempt returns an empty file list without raising, the
restart loop performs exactly 2 invocation attempts, one real attempt plus
one no-progress check, regardless of max_restart_attempts, and returns the
accumulated (empty) file list rather than raising. -/
theorem c7_restart_stall_two_attempts (config : BuildConfig)
    (invoke : Nat → Except String (List String))
    (core_on_disk : Nat → List String)
    (hauto : config.auto_restart_on_early_termination = true)
    (hmax : 2 ≤ config.max_restart_attempts)
    (hzero : ∀ n, invoke n = .ok []) :
    execute_claude_build_with_restart invoke core_on_disk config =
      (.ok [], 2) := by
  obtain ⟨k, hk⟩ : ∃ k, config.max_restart_attempts = k + 2 :=
    ⟨config.max_restart_attempts - 2, by omega⟩
  unfold execute_claude_build_with_restart
  rw [hauto, hk]
  have e1 : ¬ ((1 : Nat) > k + 2) := by omega
  have e2 : (1 : Nat) < k + 2 := by omega
  have e3 : ¬ ((2 : Nat) > k + 2) := by omega
  show restart_loop invoke core_on_disk true (k + 2) (k + 2 + 1) _ = (.ok [], 2)
  simp only [restart_loop, hzero, e1, e2, e3, if_false, if_true,
    accumulate_files, List.foldl_nil, List.length_nil, lt_self_iff_false,
    decide_False, decide_True, Bool.false_and, Bool.and_false, Bool.true_and,
    Bool.and_true, Bool.false_or, Bool.or_false, Bool.false_eq_true,
    true_and, and_false, false_and, gt_iff_lt]
  norm_num

/-- Witness for C7: with the sample configuration (auto restart on, three
allowed attempts) and an invoker that always returns zero files, the loop
stops after exactly two invocations with the empty accumulated list. -/
theorem c7_restart_stall_two_attempts_witness :
    sample_config.auto_restart_on_early_termination = true ∧
    2 ≤ sample_config.max_restart_attempts ∧
    execute_claude_build_with_restart (fun _ => .ok []) (fun _ => [])
      sample_config = (.ok [], 2) := by
  refine ⟨rfl, by norm_num [sample_config], ?_⟩
  exact c7_restart_stall_two_attempts sample_config (fun _ => .ok [])
    (fun _ => []) rfl (by norm_num [sample_config]) (fun n => rfl)

end MemoryBankCore
